import Mathlib

/-!
Verification of the conversational retrieval chatbot front end
(`src/chatbot_app.py`), a Streamlit script over a LlamaCloud index and a
Gemini generation backend.

Streamlit semantics modelled here: the script re-runs top to bottom on every
user event; `st.session_state` persists across reruns; `st.chat_input`
returns the freshly submitted text or `None`; Python truthiness makes both
`None` and the empty string falsy in `if prompt := st.chat_input(...)`.

The external chat engine call (`chat_engine.chat`, which internally performs
condensation, retrieval and synthesis) is modelled as an oracle outcome
passed into each run: `Except String String` (error message or answer text).
-/

/-- Role of a chat message, mirroring the `"role"` field of the dicts stored
in `st.session_state.messages`. -/
inductive Role where
  | user
  | assistant
deriving DecidableEq

/-- One stored chat message: `{"role": ..., "content": ...}`. -/
structure Message where
  role : Role
  content : String
deriving DecidableEq

/-- The seeded greeting text from line 71 of `chatbot_app.py`. -/
def greetingText : String :=
  "Hello! I am your TBL Medicare expert, powered by Gemini. How can I help you today?"

/-- The seeded greeting message (line 70-72). -/
def greetingMessage : Message :=
  { role := Role.assistant, content := greetingText }

/-- Python truthiness of an optional string: `None` and `""` are falsy. -/
def truthy : Option String → Bool
  | none => false
  | some s => !s.isEmpty

/-- Role of the last stored message (`st.session_state.messages[-1]["role"]`),
or `none` for an empty history (which Python would crash on; reachable
histories are never empty because initialization seeds the greeting). -/
def lastRole (msgs : List Message) : Option Role :=
  msgs.getLast?.map (fun m => m.role)

/-- The chat-history initialization guard, lines 69-72:
`if "messages" not in st.session_state.keys(): st.session_state.messages = [greeting]`.
`none` models the absent `"messages"` key. -/
def initMessages : Option (List Message) → List Message
  | none => [greetingMessage]
  | some msgs => msgs

/-- Result of one execution of the input-and-response section of the script:
the new `st.session_state.messages`, and whether/with what argument
`chat_engine.chat` was invoked (`none` = not invoked; `some arg` = invoked
with `arg`, where `arg : Option String` is the Python value of `prompt`,
possibly `None`). -/
structure StepResult where
  messages : List Message
  chatCalledWith : Option (Option String)
deriving DecidableEq

/-- One execution of lines 75-93 of `chatbot_app.py`:

* line 75-76: `if prompt := st.chat_input(...)` appends a user message when
  the submitted value is truthy;
* lines 79-81 (display loop) do not change state;
* lines 84-93: if the last message is not from the assistant, call
  `chat_engine.chat(prompt)`; on success append the assistant answer, on
  exception show an error and append nothing.

`input` is the value returned by `st.chat_input` this run; `chatResult` is
the outcome of the external chat call (consulted only if the call fires). -/
def runStep (msgs : List Message) (input : Option String)
    (chatResult : Except String String) : StepResult :=
  let msgs1 := if truthy input then msgs ++ [{ role := Role.user, content := input.getD "" }] else msgs
  if lastRole msgs1 = some Role.assistant then
    { messages := msgs1, chatCalledWith := none }
  else
    match chatResult with
    | Except.ok r => { messages := msgs1 ++ [{ role := Role.assistant, content := r }], chatCalledWith := some input }
    | Except.error _ => { messages := msgs1, chatCalledWith := some input }

/-- Secrets read from `st.secrets` (lines 13-15); `none` models a missing key,
and `st.secrets.get` returns `None` for a missing key. -/
structure Secrets where
  llamaCloudApiKey : Option String
  geminiApiKey : Option String
deriving DecidableEq

/-- Outcome of one full top-to-bottom run of the script. -/
structure AppOutcome where
  configError : Bool
  engineRequested : Bool
  messages : Option (List Message)
  chatCalledWith : Option (Option String)
deriving DecidableEq

/-- One full run of `chatbot_app.py` (lines 17-93): the credential gate
(line 17), the cached engine construction (`engineOk` models whether
`get_chat_engine` returned an engine or `None` after an exception), the
history-initialization guard, and the input-and-response section.
`state` is `st.session_state.messages` before the run (`none` = key absent). -/
def appRun (sec : Secrets) (engineOk : Bool) (state : Option (List Message))
    (input : Option String) (chatResult : Except String String) : AppOutcome :=
  if truthy sec.llamaCloudApiKey && truthy sec.geminiApiKey then
    if engineOk then
      let msgs0 := initMessages state
      let r := runStep msgs0 input chatResult
      { configError := false, engineRequested := true,
        messages := some r.messages, chatCalledWith := r.chatCalledWith }
    else
      { configError := false, engineRequested := true,
        messages := state, chatCalledWith := none }
  else
    { configError := true, engineRequested := false,
      messages := state, chatCalledWith := none }

/-- The generation-backend configuration constructed on lines 42-46:
`GoogleGenAI(model="gemini-2.5-flash", temperature=0.1, ...)`. -/
structure GenConfig where
  model : String
  temperature : ℚ
deriving DecidableEq

/-- The generation-backend configuration as a function of every externally
supplied input of the script (the secrets): lines 42-46 use literal
constants, so the result does not depend on `sec` at all. -/
def engineGenConfig (sec : Secrets) : GenConfig :=
  { model := "gemini-2.5-flash", temperature := 1/10 }

/-- A retrieved passage with its source metadata (rank given by list
position). -/
structure RetrievedPassage where
  text : String
  sourceTitle : String
  pageNumber : Nat
deriving DecidableEq

/-- A synthesized answer together with its (title, page) citations. -/
structure SynthesisResult where
  answerText : String
  citations : List (String × Nat)
deriving DecidableEq

/-- The fixed not-found statement required by the grounding policy
("state clearly that you cannot find the information in the documents",
MASTER_PROMPT line 37). -/
def notFoundAnswer : String :=
  "I cannot find the information in the documents."

/-- Modelled from the spec: the AnswerSynthesizer. In the repository the
synthesis step is performed by the external generation backend steered by
`MASTER_PROMPT` (lines 30-39) inside `chat_engine.chat`; no synthesizer code
is under `src/`. Per the spec, if the passage set is empty or no passage
sufficiently supports an answer (`supports`), the result states that the
knowledge base does not contain the answer, with an empty citation list;
otherwise the backend combines all supporting passages and each used passage
is cited by title and page. -/
def synthesize (supports : RetrievedPassage → Bool)
    (backend : String → List RetrievedPassage → String)
    (query : String) (passages : List RetrievedPassage) : SynthesisResult :=
  if passages.isEmpty || passages.all (fun p => !(supports p)) then
    { answerText := notFoundAnswer, citations := [] }
  else
    { answerText := backend query passages,
      citations := (passages.filter supports).map (fun p => (p.sourceTitle, p.pageNumber)) }

/-- Modelled from the spec: the QueryCondenser. In the repository the
condensation step lives inside the external `condense_question` chat engine
(line 55-59); no condenser code is under `src/`. Per the spec, when the prior
history has zero turns the standalone query equals the raw input unchanged,
otherwise the generation backend rewrites it. -/
def condenseQuery (backend : List Message → String → String)
    (history : List Message) (q : String) : String :=
  if history.isEmpty then q else backend history q

/-! ### Helper lemmas -/

theorem truthy_some_of_ne (p : String) (hp : p ≠ "") : truthy (some p) = true := by
  have he : p.isEmpty = false :=
    Bool.eq_false_iff.mpr (fun hb => hp ((String.isEmpty_iff p).mp hb))
  simp [truthy, he]

theorem lastRole_concat (ms : List Message) (m : Message) :
    lastRole (ms ++ [m]) = some m.role := by
  simp [lastRole]

theorem runStep_submit_ok (msgs : List Message) (p a : String) (hp : p ≠ "") :
    runStep msgs (some p) (Except.ok a)
      = { messages := msgs ++ [⟨Role.user, p⟩, ⟨Role.assistant, a⟩],
          chatCalledWith := some (some p) } := by
  have h1 : lastRole (msgs ++ [(⟨Role.user, p⟩ : Message)]) = some Role.user :=
    lastRole_concat msgs ⟨Role.user, p⟩
  simp [runStep, truthy_some_of_ne p hp, h1]

theorem runStep_submit_error (msgs : List Message) (p e : String) (hp : p ≠ "") :
    runStep msgs (some p) (Except.error e)
      = { messages := msgs ++ [⟨Role.user, p⟩], chatCalledWith := some (some p) } := by
  have h1 : lastRole (msgs ++ [(⟨Role.user, p⟩ : Message)]) = some Role.user :=
    lastRole_concat msgs ⟨Role.user, p⟩
  simp [runStep, truthy_some_of_ne p hp, h1]

theorem runStep_none_of_lastRole_assistant (msgs : List Message)
    (chatResult : Except String String) (h : lastRole msgs = some Role.assistant) :
    runStep msgs none chatResult = { messages := msgs, chatCalledWith := none } := by
  simp [runStep, truthy, h]

theorem runStep_none_of_lastRole_user (msgs : List Message) (a e : String)
    (h : lastRole msgs = some Role.user) :
    runStep msgs none (Except.ok a)
        = { messages := msgs ++ [⟨Role.assistant, a⟩], chatCalledWith := some none } ∧
    runStep msgs none (Except.error e)
        = { messages := msgs, chatCalledWith := some none } := by
  constructor <;> simp [runStep, truthy, h]

/-! ### Claim theorems -/

/-- C1 (counterexample): the claim "no other operation changes the history
length" fails on the code. Reachable scenario: the seeded session takes one
failed turn for submission "q" (history length 2, user message pending at the
tail); a subsequent run with no submitted text still fires the chat call, and
when that call succeeds the history grows to length 3 — the length changed
with no submitted user text. -/
theorem history_growth_counterexample :
    (runStep (initMessages none) (some "q") (Except.error "boom")).messages.length = 2 ∧
    (runStep (runStep (initMessages none) (some "q") (Except.error "boom")).messages
        none (Except.ok "ans")).messages.length = 3 := by
  constructor <;> rfl

/-- C1 (amended): per submitted user text, the history grows by exactly 2
(user turn then assistant turn) when the chat call succeeds and by exactly 1
(user turn only) when it raises; a run with no submission leaves the history
unchanged when the tail is an assistant message, but when a user message is
pending at the tail the chat call still fires and a successful outcome
appends one assistant message (so runs without a submission can also grow
the history). -/
theorem history_growth_amended (msgs : List Message) (p a e : String) (hp : p ≠ "") :
    (runStep msgs (some p) (Except.ok a)).messages
        = msgs ++ [⟨Role.user, p⟩, ⟨Role.assistant, a⟩] ∧
    (runStep msgs (some p) (Except.error e)).messages = msgs ++ [⟨Role.user, p⟩] ∧
    (lastRole msgs = some Role.assistant →
      (runStep msgs none (Except.ok a)).messages = msgs ∧
      (runStep msgs none (Except.error e)).messages = msgs) ∧
    (lastRole msgs = some Role.user →
      (runStep msgs none (Except.ok a)).messages = msgs ++ [⟨Role.assistant, a⟩] ∧
      (runStep msgs none (Except.error e)).messages = msgs) := by
  refine ⟨?_, ?_, ?_, ?_⟩
  · rw [runStep_submit_ok msgs p a hp]
  · rw [runStep_submit_error msgs p e hp]
  · intro h
    rw [runStep_none_of_lastRole_assistant msgs (Except.ok a) h,
      runStep_none_of_lastRole_assistant msgs (Except.error e) h]
    exact ⟨rfl, rfl⟩
  · intro h
    have hh := runStep_none_of_lastRole_user msgs a e h
    rw [hh.1, hh.2]
    exact ⟨rfl, rfl⟩

/-- C1 (witness): instantiation of the amended growth law at the seeded
greeting history with submission "hi" and successful answer "a". -/
theorem history_growth_amended_witness :
    (runStep [greetingMessage] (some "hi") (Except.ok "a")).messages
      = [greetingMessage] ++ [⟨Role.user, "hi"⟩, ⟨Role.assistant, "a"⟩] :=
  (history_growth_amended [greetingMessage] "hi" "a" "err" (by decide)).1

/-- C2 (counterexample): the claim "the history never contains two
consecutive user messages" fails. Reachable scenario: from the seeded
history, the turn for "q1" fails (user message pending), then "q2" is
submitted and its chat call succeeds; the resulting history holds the user
messages "q1" and "q2" at consecutive positions 1 and 2. -/
theorem pending_turn_counterexample :
    (runStep (runStep (initMessages none) (some "q1") (Except.error "boom")).messages
        (some "q2") (Except.ok "ans")).messages[1]? = some ⟨Role.user, "q1"⟩ ∧
    (runStep (runStep (initMessages none) (some "q1") (Except.error "boom")).messages
        (some "q2") (Except.ok "ans")).messages[2]? = some ⟨Role.user, "q2"⟩ := by
  constructor <;> rfl

/-- C2 (amended): a pending user message at the tail is NOT resolved before a
new user message is accepted: a new submission is appended directly after the
pending user message, so the history contains two consecutive user messages,
and the chat call is then invoked with the new submission only (the pending
message is left permanently unanswered in place). -/
theorem pending_turn_amended (ms : List Message) (t p a : String) (hp : p ≠ "") :
    (runStep (ms ++ [⟨Role.user, t⟩]) (some p) (Except.ok a)).messages
      = ms ++ [⟨Role.user, t⟩, ⟨Role.user, p⟩, ⟨Role.assistant, a⟩] ∧
    (runStep (ms ++ [⟨Role.user, t⟩]) (some p) (Except.ok a)).chatCalledWith
      = some (some p) := by
  rw [runStep_submit_ok (ms ++ [(⟨Role.user, t⟩ : Message)]) p a hp]
  exact ⟨by simp, rfl⟩

/-- C2 (witness): instantiation after a failed turn for "q1" followed by the
submission "q2". -/
theorem pending_turn_amended_witness :
    (runStep ([greetingMessage] ++ [⟨Role.user, "q1"⟩]) (some "q2") (Except.ok "ans")).messages
      = [greetingMessage] ++ [⟨Role.user, "q1"⟩, ⟨Role.user, "q2"⟩, ⟨Role.assistant, "ans"⟩] :=
  (pending_turn_amended [greetingMessage] "q1" "q2" "ans" (by decide)).1

/-- C3: when the chat call (condense/retrieve/synthesize) raises, the new
history is exactly the old messages plus the user turn: every previously
stored message is unmodified and no assistant message is appended for the
failed attempt; and the session stays usable — a subsequent submission with a
successful chat call ends with an assistant answer at the tail. -/
theorem failed_turn_atomicity (msgs : List Message) (p q a e : String)
    (hp : p ≠ "") (hq : q ≠ "") :
    (runStep msgs (some p) (Except.error e)).messages = msgs ++ [⟨Role.user, p⟩] ∧
    lastRole (runStep (msgs ++ [⟨Role.user, p⟩]) (some q) (Except.ok a)).messages
      = some Role.assistant := by
  constructor
  · rw [runStep_submit_error msgs p e hp]
  · rw [runStep_submit_ok (msgs ++ [(⟨Role.user, p⟩ : Message)]) q a hq]
    have : msgs ++ [(⟨Role.user, p⟩ : Message)]
        ++ [(⟨Role.user, q⟩ : Message), ⟨Role.assistant, a⟩]
        = (msgs ++ [⟨Role.user, p⟩, ⟨Role.user, q⟩]) ++ [⟨Role.assistant, a⟩] := by
      simp
    rw [this, lastRole_concat]

/-- C3 (witness): instantiation at the seeded greeting history with a failed
turn for "q" and a recovery turn for "r". -/
theorem failed_turn_atomicity_witness :
    (runStep [greetingMessage] (some "q") (Except.error "boom")).messages
      = [greetingMessage] ++ [⟨Role.user, "q"⟩] :=
  (failed_turn_atomicity [greetingMessage] "q" "r" "ans" "boom" (by decide) (by decide)).1

/-- C4: when the retrieved passage set is empty, or no passage supports an
answer, the synthesized result is exactly the explicit not-found statement
with an empty citation list; the backend (general knowledge) is never
consulted for the answer text. -/
theorem empty_retrieval_not_found (supports : RetrievedPassage → Bool)
    (backend : String → List RetrievedPassage → String) (query : String)
    (passages : List RetrievedPassage)
    (h : passages = [] ∨ ∀ p ∈ passages, supports p = false) :
    synthesize supports backend query passages
      = { answerText := notFoundAnswer, citations := [] } := by
  rcases h with h | h
  · simp [synthesize, h]
  · have hall : passages.all (fun p => !(supports p)) = true := by
      rw [List.all_eq_true]
      intro p hp
      simp [h p hp]
    simp [synthesize, hall]

/-- C4 (witness): instantiation with zero retrieved passages and a backend
that would answer from general knowledge if it were consulted. -/
theorem empty_retrieval_not_found_witness :
    synthesize (fun _ => true) (fun _ _ => "general knowledge") "what is Part B?" []
      = { answerText := notFoundAnswer, citations := [] } :=
  empty_retrieval_not_found (fun _ => true) (fun _ _ => "general knowledge")
    "what is Part B?" [] (Or.inl rfl)

/-- C5: for a non-empty question asked against an empty prior history (the
first question of a session), the condensation step returns the raw input
unchanged, whatever the rewriting backend would do. -/
theorem first_question_condense_identity (backend : List Message → String → String)
    (q : String) (hq : q ≠ "") :
    condenseQuery backend [] q = q := by
  simp [condenseQuery]

/-- C5 (witness): instantiation at a concrete first question with a backend
that would distort it. -/
theorem first_question_condense_identity_witness :
    condenseQuery (fun _ _ => "distorted") [] "What is covered under Part B?"
      = "What is covered under Part B?" :=
  first_question_condense_identity (fun _ _ => "distorted")
    "What is covered under Part B?" (by decide)

/-- C6: initializing the chat history for a fresh session yields exactly one
message, the seeded assistant greeting (and, being a total function, the
initialization cannot fail). -/
theorem session_init_greeting :
    initMessages none = [greetingMessage] ∧
    (initMessages none).length = 1 ∧
    lastRole (initMessages none) = some Role.assistant ∧
    greetingMessage.role = Role.assistant := by
  exact ⟨rfl, rfl, rfl, rfl⟩

/-- C7: when either API key is missing (or empty), the run reports a
configuration error and does nothing else: `get_chat_engine` is never
requested, the session history is not seeded (the state is returned
unchanged), and no submission is accepted (the chat call never fires). -/
theorem missing_credentials_config_error (sec : Secrets) (engineOk : Bool)
    (state : Option (List Message)) (input : Option String)
    (chatResult : Except String String)
    (h : truthy sec.llamaCloudApiKey = false ∨ truthy sec.geminiApiKey = false) :
    appRun sec engineOk state input chatResult
      = { configError := true, engineRequested := false,
          messages := state, chatCalledWith := none } := by
  rcases h with h | h <;> simp [appRun, h]

/-- C7 (witness): instantiation with a missing LlamaCloud key, a would-be
healthy engine, a fresh session and a pending submission. -/
theorem missing_credentials_config_error_witness :
    appRun ⟨none, some "gk"⟩ true none (some "hello") (Except.ok "ans")
      = { configError := true, engineRequested := false,
          messages := none, chatCalledWith := none } :=
  missing_credentials_config_error ⟨none, some "gk"⟩ true none (some "hello")
    (Except.ok "ans") (Or.inl rfl)

/-- C8 (counterexample): the claim that the temperature and model identifier
are "externally supplied configuration values rather than internal constants"
fails: the configuration produced by the source is identical for two
different external inputs (it is the constant model "gemini-2.5-flash" with
temperature 0.1, hardcoded on lines 42-46). -/
theorem gen_config_constant_counterexample :
    engineGenConfig ⟨some "keyA", some "keyB"⟩ = engineGenConfig ⟨none, none⟩ ∧
    (engineGenConfig ⟨some "keyA", some "keyB"⟩).temperature = 1/10 ∧
    (engineGenConfig ⟨some "keyA", some "keyB"⟩).model = "gemini-2.5-flash" :=
  ⟨rfl, rfl, rfl⟩

/-- C8 (amended): the generation backend's model identifier and temperature
are internal constants of the source ("gemini-2.5-flash" and 0.1), identical
for every external input, and the temperature is low (at most 0.2). -/
theorem gen_config_amended (sec : Secrets) :
    engineGenConfig sec = { model := "gemini-2.5-flash", temperature := 1/10 } ∧
    (engineGenConfig sec).temperature ≤ 1/5 := by
  refine ⟨rfl, ?_⟩
  show (1 : ℚ)/10 ≤ 1/5
  norm_num

/-- C9: the history-initialization guard is idempotent: run against a session
that already has messages it returns them exactly unchanged, and re-running
it on its own output changes nothing (reruns never duplicate the greeting or
drop turns). -/
theorem init_idempotent (msgs : List Message) (s : Option (List Message)) :
    initMessages (some msgs) = msgs ∧
    initMessages (some (initMessages s)) = initMessages s :=
  ⟨rfl, by cases s <;> rfl⟩

/-- C10: in a run with no new submission whose stored history ends with a
user message (e.g. the rerun after a failed turn), the response step still
fires and invokes the chat engine with the run's `prompt` value, which is
`None` — never with the pending user message's text. -/
theorem rerun_chats_with_none (ms : List Message) (t : String)
    (chatResult : Except String String) :
    (runStep (ms ++ [⟨Role.user, t⟩]) none chatResult).chatCalledWith = some none ∧
    (runStep (ms ++ [⟨Role.user, t⟩]) none chatResult).chatCalledWith
      ≠ some (some t) := by
  have h : lastRole (ms ++ [(⟨Role.user, t⟩ : Message)]) = some Role.user :=
    lastRole_concat ms ⟨Role.user, t⟩
  cases chatResult with
  | ok a =>
      rw [(runStep_none_of_lastRole_user (ms ++ [(⟨Role.user, t⟩ : Message)]) a "e" h).1]
      exact ⟨rfl, by simp⟩
  | error e =>
      rw [(runStep_none_of_lastRole_user (ms ++ [(⟨Role.user, t⟩ : Message)]) "a" e h).2]
      exact ⟨rfl, by simp⟩
